import Mathlib

/-
Verification of the meal_max battle-resolution subsystem and its kitchen
(persistence) collaborator.

Embedded from the repository sources:
  * meal_max/models/kitchen_model.py — Meal dataclass, get_leaderboard,
    update_meal_stats (present in the repository).
  * The BattleModel (combatant roster, battle score, battle resolution) —
    its module meal_max/models/battle_model.py is absent from the sources;
    only its test suite tests/test_battle_model.py is present.  Those
    definitions are modelled from the specification (sections 4.1-4.3),
    with behaviour pinned by the test suite where the two disagree.

Numeric values (prices, scores, win percentages) are embedded as rationals:
every numeric literal in the sources is a decimal, and the tests assert
exact equality of the computed decimal results.
-/

namespace MealMax

/-- A meal record, mirroring the `Meal` dataclass of kitchen_model.py:
integer id, name (`meal`), cuisine string, decimal price and a difficulty
string.  The construction-time invariants live in `mkMeal` below. -/
structure Meal where
  id : Int
  meal : String
  cuisine : String
  price : ℚ
  difficulty : String
deriving DecidableEq, Repr

/-- Embedding of `Meal.__post_init__` (kitchen_model.py lines 23-27):
construction fails when `price < 0` or when the difficulty is not one of
LOW, MED, HIGH; otherwise it yields the meal with exactly the given
fields. -/
def mkMeal (id : Int) (meal : String) (cuisine : String) (price : ℚ)
    (difficulty : String) : Except String Meal :=
  if price < 0 then
    Except.error "Price must be a positive value."
  else if difficulty ∈ (["LOW", "MED", "HIGH"] : List String) then
    Except.ok { id := id, meal := meal, cuisine := cuisine, price := price,
                difficulty := difficulty }
  else
    Except.error "Difficulty must be LOW, MED, or HIGH."

/-- Modelled from the spec: the fixed difficulty-modifier table of the
score function (section 4.2), LOW → 3, MED → 2, HIGH → 1.  The source
module battle_model.py holding this table is absent from the repository;
the catch-all 0 branch is unreachable for meals satisfying the difficulty
invariant. -/
def difficultyModifier : String → ℚ
  | "LOW" => 3
  | "MED" => 2
  | "HIGH" => 1
  | _ => 0

/-- Modelled from the spec: the battle score of section 4.2,
`score(meal) = price * length(cuisine) - difficulty_modifier(difficulty)`.
The source module battle_model.py holding `get_battle_score` is absent
from the repository; the test test_get_battle_score pins the concrete
value 68.93 for (price 9.99, cuisine "Chinese", HIGH). -/
def get_battle_score (m : Meal) : ℚ :=
  m.price * (m.cuisine.length : ℚ) - difficultyModifier m.difficulty

/-- Modelled from the spec: `prepare(meal)` of section 4.1, called
`prep_combatant` in the tests.  Appends the meal to the roster; fails
with the capacity error (message pinned by test_prep_combatants_overload)
when the roster already holds 2 entries. -/
def prep_combatant (combatants : List Meal) (m : Meal) :
    Except String (List Meal) :=
  if 2 ≤ combatants.length then
    Except.error "Combatant list is full, cannot add more combatants."
  else
    Except.ok (combatants ++ [m])

/-- State-passing form of `prep_combatant`: on failure the roster is the
one the caller already held, and the error is raised before any append,
so the failing branch carries the unchanged roster. -/
def prepRun (combatants : List Meal) (m : Meal) :
    List Meal × Except String Unit :=
  match prep_combatant combatants m with
  | Except.ok st => (st, Except.ok ())
  | Except.error e => (combatants, Except.error e)

/-- Modelled from the spec: `clear()` of section 4.1 (called
`clear_combatants` in the tests) empties the roster unconditionally. -/
def clear_combatants (_ : List Meal) : List Meal := []

/-- Modelled from the spec: `list()` of section 4.1 (called
`get_combatants` in the tests) returns the entries without mutation. -/
def get_combatants (combatants : List Meal) : List Meal := combatants

/-- The outcome of one successful battle resolution: the value the
operation returns, the winning meal, the stat-sink calls issued
(meal id paired with the outcome string), and the roster after the
loser is removed. -/
structure BattleResult where
  returnValue : String
  winner : Meal
  statCalls : List (Int × String)
  combatants : List Meal
deriving DecidableEq, Repr

/-- Modelled from the spec: `battle`/`resolve` of section 4.3.  The source
module battle_model.py is absent from the repository.  With fewer than two
combatants it fails with the InvalidState message pinned by
test_battle_low_combatants.  Otherwise it scores the first two combatants,
forms `delta = |score1 - score2| / 100`, and with draw `r`: if `r < delta`
combatant 1 wins, else combatant 2 wins (section 4.3 step 5).  It records
"win" for the winner's id and "loss" for the loser's id, removes the loser
from the roster, and returns the winner's name — test_battle line 43
asserts the returned value equals `sample_meal1.meal`, the name string,
which pins the return value against the spec's "Return the winning
Meal". -/
def battle (combatants : List Meal) (r : ℚ) : Except String BattleResult :=
  match combatants with
  | c1 :: c2 :: rest =>
      let score_1 := get_battle_score c1
      let score_2 := get_battle_score c2
      let delta := |score_1 - score_2| / 100
      if r < delta then
        Except.ok { returnValue := c1.meal, winner := c1,
                    statCalls := [(c1.id, "win"), (c2.id, "loss")],
                    combatants := (c1 :: c2 :: rest).erase c2 }
      else
        Except.ok { returnValue := c2.meal, winner := c2,
                    statCalls := [(c2.id, "win"), (c1.id, "loss")],
                    combatants := (c1 :: c2 :: rest).erase c1 }
  | _ => Except.error "Two combatants must be prepped for a battle."

/-- State-passing form of `battle`: the precondition check is the first
statement of the source operation, so on failure the roster is unchanged
and no stat-sink call has been issued. -/
def battleRun (combatants : List Meal) (r : ℚ) :
    List Meal × List (Int × String) × Except String String :=
  match battle combatants r with
  | Except.ok res => (res.combatants, res.statCalls, Except.ok res.returnValue)
  | Except.error e => (combatants, [], Except.error e)

/-- A row of the `meals` table as kitchen_model.py reads it: the Meal
fields plus the battle counters and the soft-delete flag. -/
structure MealRow where
  id : Int
  meal : String
  cuisine : String
  price : ℚ
  difficulty : String
  battles : Nat
  wins : Nat
  deleted : Bool
deriving DecidableEq, Repr

/-- One leaderboard entry as built by `get_leaderboard`
(kitchen_model.py lines 176-188). -/
structure LeaderboardEntry where
  id : Int
  meal : String
  cuisine : String
  price : ℚ
  difficulty : String
  battles : Nat
  wins : Nat
  win_pct : ℚ
deriving DecidableEq, Repr

/-- Rounding to one decimal place, embedding Python's `round(x, 1)` on
the exact rational value (round-half-up on the scaled value; none of the
asserted leaderboard values sits on a tie). -/
def round1 (q : ℚ) : ℚ := (round (q * 10) : ℤ) / 10

/-- The dictionary `get_leaderboard` builds for one row
(kitchen_model.py lines 178-187): the row's fields with
`win_pct = round(wins / battles * 100, 1)`. -/
def leaderboardEntryOfRow (row : MealRow) : LeaderboardEntry :=
  { id := row.id, meal := row.meal, cuisine := row.cuisine,
    price := row.price, difficulty := row.difficulty,
    battles := row.battles, wins := row.wins,
    win_pct := round1 ((row.wins : ℚ) / (row.battles : ℚ) * 100) }

/-- Embedding of `get_leaderboard` (kitchen_model.py lines 133-195).
The sort key is validated first (the query never runs on an invalid key);
rows with `deleted = false` and `battles > 0` are selected, mapped to
entries, and sorted descending by the requested key. -/
def get_leaderboard (db : List MealRow) (sort_by : String) :
    Except String (List LeaderboardEntry) :=
  if sort_by = "win_pct" then
    Except.ok
      (((db.filter fun row => !row.deleted && decide (0 < row.battles)).map
          leaderboardEntryOfRow).mergeSort
        fun a b => decide (b.win_pct ≤ a.win_pct))
  else if sort_by = "wins" then
    Except.ok
      (((db.filter fun row => !row.deleted && decide (0 < row.battles)).map
          leaderboardEntryOfRow).mergeSort
        fun a b => decide (b.wins ≤ a.wins))
  else
    Except.error ("Invalid sort_by parameter: " ++ sort_by)

/-- Embedding of `update_meal_stats` (kitchen_model.py lines 269-308).
The first row with the given id is checked: absent → not-found error,
soft-deleted → deleted error.  Then result "win" increments battles and
wins of the rows with that id, "loss" increments only battles, and any
other result string is rejected. -/
def update_meal_stats (db : List MealRow) (meal_id : Int) (result : String) :
    Except String (List MealRow) :=
  match db.find? (fun row => row.id == meal_id) with
  | none => Except.error ("Meal with ID " ++ toString meal_id ++ " not found")
  | some row =>
      if row.deleted then
        Except.error ("Meal with ID " ++ toString meal_id ++ " has been deleted")
      else if result = "win" then
        Except.ok (db.map fun r =>
          if r.id == meal_id then
            { r with battles := r.battles + 1, wins := r.wins + 1 }
          else r)
      else if result = "loss" then
        Except.ok (db.map fun r =>
          if r.id == meal_id then { r with battles := r.battles + 1 } else r)
      else
        Except.error ("Invalid result: " ++ result ++ ". Expected win or loss.")

/-- Fixture sample_meal1 of test_battle_model.py:
Meal(1, "Meal 1", "Chinese", 9.99, "HIGH"). -/
def sampleMeal1 : Meal :=
  { id := 1, meal := "Meal 1", cuisine := "Chinese", price := 999/100,
    difficulty := "HIGH" }

/-- Fixture sample_meal2 of test_battle_model.py:
Meal(2, "Meal 2", "American", 15.99, "LOW"). -/
def sampleMeal2 : Meal :=
  { id := 2, meal := "Meal 2", cuisine := "American", price := 1599/100,
    difficulty := "LOW" }

/-- A meal distinct from sample_meal1 but sharing its name, used to show
the battle return value does not determine the winning meal. -/
def sampleMealDup : Meal :=
  { id := 7, meal := "Meal 1", cuisine := "Thai", price := 5,
    difficulty := "LOW" }

/-- Fixture sample_meal3 of test_battle_model.py:
Meal(3, "Meal 3", "French", 19.99, "MED"). -/
def sampleMeal3 : Meal :=
  { id := 3, meal := "Meal 3", cuisine := "French", price := 1999/100,
    difficulty := "MED" }

/-- A sample meals-table row with 3 battles and 1 win. -/
def sampleRow1 : MealRow :=
  { id := 1, meal := "Meal 1", cuisine := "Chinese", price := 999/100,
    difficulty := "HIGH", battles := 3, wins := 1, deleted := false }

/-- A sample meals-table row with 2 battles and 2 wins. -/
def sampleRow2 : MealRow :=
  { id := 2, meal := "Meal 2", cuisine := "American", price := 1599/100,
    difficulty := "LOW", battles := 2, wins := 2, deleted := false }

/- ------------------------------------------------------------------ -/
/- Helper lemmas shared by the claim theorems.                         -/
/- ------------------------------------------------------------------ -/

theorem erase_pair_left (c1 c2 : Meal) : [c1, c2].erase c1 = [c2] := by
  simp [List.erase_cons]

theorem erase_pair_right (c1 c2 : Meal) : [c1, c2].erase c2 = [c1] := by
  by_cases hc : c1 = c2
  · subst hc; simp [List.erase_cons]
  · simp [List.erase_cons, beq_iff_eq, hc]

/-- On a roster of exactly two combatants the battle always succeeds and
its outcome is given by the `r < delta` comparison: the winner keeps the
roster to itself, both stat calls are issued, and the returned value is
the winner's name. -/
theorem battle_pair_eq (c1 c2 : Meal) (r : ℚ) :
    battle [c1, c2] r =
      if r < |get_battle_score c1 - get_battle_score c2| / 100 then
        Except.ok { returnValue := c1.meal, winner := c1,
                    statCalls := [(c1.id, "win"), (c2.id, "loss")],
                    combatants := [c1] }
      else
        Except.ok { returnValue := c2.meal, winner := c2,
                    statCalls := [(c2.id, "win"), (c1.id, "loss")],
                    combatants := [c2] } := by
  rw [battle]
  by_cases hlt : r < |get_battle_score c1 - get_battle_score c2| / 100
  · simp only [if_pos hlt, erase_pair_right]
  · simp only [if_neg hlt, erase_pair_left]

theorem score_sampleMeal1 : get_battle_score sampleMeal1 = 6893/100 := by
  have h : ("Chinese" : String).length = 7 := rfl
  rw [get_battle_score, sampleMeal1]
  norm_num [h, difficultyModifier]

theorem score_sampleMeal2 : get_battle_score sampleMeal2 = 12492/100 := by
  have h : ("American" : String).length = 8 := rfl
  rw [get_battle_score, sampleMeal2]
  norm_num [h, difficultyModifier]

theorem score_sampleMealDup : get_battle_score sampleMealDup = 17 := by
  have h : ("Thai" : String).length = 4 := rfl
  rw [get_battle_score, sampleMealDup]
  norm_num [h, difficultyModifier]

/-- The fixed draw 0.3 of test_battle lies below the delta of the two
sample meals, |68.93 - 124.92| / 100 = 0.5599. -/
theorem draw_lt_delta_12 :
    (3 : ℚ)/10 <
      |get_battle_score sampleMeal1 - get_battle_score sampleMeal2| / 100 := by
  rw [score_sampleMeal1, score_sampleMeal2]
  rw [abs_sub_comm, abs_of_nonneg (by norm_num)]
  norm_num

/-- The draw 0.3 also lies below the delta of the duplicate-name meal
against sample meal 2, |17 - 124.92| / 100 = 1.0792. -/
theorem draw_lt_delta_dup2 :
    (3 : ℚ)/10 <
      |get_battle_score sampleMealDup - get_battle_score sampleMeal2| / 100 := by
  rw [score_sampleMealDup, score_sampleMeal2]
  rw [abs_sub_comm, abs_of_nonneg (by norm_num)]
  norm_num

/- ------------------------------------------------------------------ -/
/- Claim theorems.                                                     -/
/- ------------------------------------------------------------------ -/

/-- C1: for a roster of exactly two combatants and any draw r in [0,1),
the battle selects combatant 1 (the first-prepared meal) as winner
exactly when `r < delta` with `delta = |score1 - score2| / 100`, and
combatant 2 otherwise; the direction of the comparison is fixed by
position, independent of which combatant scores higher. -/
theorem battle_selects_first_combatant_iff (c1 c2 : Meal) (r : ℚ)
    (hr0 : 0 ≤ r) (hr1 : r < 1) :
    ∃ res, battle [c1, c2] r = Except.ok res ∧
      (r < |get_battle_score c1 - get_battle_score c2| / 100 →
        res.winner = c1) ∧
      (¬ r < |get_battle_score c1 - get_battle_score c2| / 100 →
        res.winner = c2) ∧
      (c1 ≠ c2 →
        (res.winner = c1 ↔
          r < |get_battle_score c1 - get_battle_score c2| / 100)) := by
  rw [battle_pair_eq]
  by_cases hlt : r < |get_battle_score c1 - get_battle_score c2| / 100
  · rw [if_pos hlt]
    exact ⟨_, rfl, fun _ => rfl, fun h => absurd hlt h,
      fun _ => ⟨fun _ => hlt, fun _ => rfl⟩⟩
  · rw [if_neg hlt]
    exact ⟨_, rfl, fun h => absurd h hlt, fun _ => rfl,
      fun hne => ⟨fun h2 => absurd h2.symm hne, fun hr => absurd hr hlt⟩⟩

/-- Witness for C1: with the test fixtures (scores 68.93 and 124.92) and
the fixed draw 0.3 < 0.5599, the first-prepared meal wins even though it
has the lower score. -/
theorem battle_selects_first_combatant_iff_witness :
    ∃ res, battle [sampleMeal1, sampleMeal2] (3/10) = Except.ok res ∧
      res.winner = sampleMeal1 := by
  obtain ⟨res, heq, hwin, -, -⟩ :=
    battle_selects_first_combatant_iff sampleMeal1 sampleMeal2 (3/10)
      (by norm_num) (by norm_num)
  exact ⟨res, heq, hwin draw_lt_delta_12⟩

/-- C2: the battle score of a valid meal is
`price * length(cuisine) - modifier` with modifier LOW → 3, MED → 2,
HIGH → 1, and in particular the fixture meal (price 9.99, cuisine
"Chinese" of 7 characters, HIGH) scores exactly 68.93. -/
theorem get_battle_score_spec :
    (∀ m : Meal, m.difficulty ∈ (["LOW", "MED", "HIGH"] : List String) →
      get_battle_score m = m.price * (m.cuisine.length : ℚ) -
        (if m.difficulty = "LOW" then 3
         else if m.difficulty = "MED" then 2 else 1)) ∧
    get_battle_score sampleMeal1 = 6893/100 := by
  constructor
  · intro m hm
    simp only [List.mem_cons, List.not_mem_nil, or_false] at hm
    rw [get_battle_score]
    rcases hm with h | h | h <;> rw [h] <;> simp [difficultyModifier]
  · exact score_sampleMeal1

/-- Witness for C2: the second fixture meal (price 15.99, cuisine
"American" of 8 characters, LOW) evaluates through the modifier table. -/
theorem get_battle_score_spec_witness :
    get_battle_score sampleMeal2 =
      sampleMeal2.price * (sampleMeal2.cuisine.length : ℚ) -
        (if sampleMeal2.difficulty = "LOW" then 3
         else if sampleMeal2.difficulty = "MED" then 2 else 1) :=
  get_battle_score_spec.1 sampleMeal2 (by decide)

/-- C3: a successful battle on a roster of exactly two combatants leaves
the roster with exactly one entry — the winner selected by the
`r < delta` rule — and issues both stat-sink calls: "win" for the
winner's id and "loss" for the loser's id. -/
theorem battle_roster_and_stats (c1 c2 : Meal) (r : ℚ)
    (hr0 : 0 ≤ r) (hr1 : r < 1) :
    ∃ res, battle [c1, c2] r = Except.ok res ∧
      res.combatants = [res.winner] ∧
      res.statCalls =
        [(res.winner.id, "win"),
         ((if r < |get_battle_score c1 - get_battle_score c2| / 100 then c2
           else c1).id, "loss")] ∧
      (res.winner.id, "win") ∈ res.statCalls ∧
      ((if r < |get_battle_score c1 - get_battle_score c2| / 100 then c2
        else c1).id, "loss") ∈ res.statCalls := by
  rw [battle_pair_eq]
  by_cases hlt : r < |get_battle_score c1 - get_battle_score c2| / 100
  · simp only [if_pos hlt]
    exact ⟨_, rfl, rfl, rfl, by simp, by simp⟩
  · simp only [if_neg hlt]
    exact ⟨_, rfl, rfl, rfl, by simp, by simp⟩

/-- Witness for C3: with the test fixtures and draw 0.3 the roster ends
as the single winning meal and the stat calls are (1, win), (2, loss). -/
theorem battle_roster_and_stats_witness :
    ∃ res, battle [sampleMeal1, sampleMeal2] (3/10) = Except.ok res ∧
      res.combatants = [res.winner] ∧
      (res.winner.id, "win") ∈ res.statCalls ∧
      ((if (3:ℚ)/10 <
          |get_battle_score sampleMeal1 - get_battle_score sampleMeal2| / 100
        then sampleMeal2 else sampleMeal1).id, "loss") ∈ res.statCalls := by
  obtain ⟨res, heq, hroster, -, hwin, hloss⟩ :=
    battle_roster_and_stats sampleMeal1 sampleMeal2 (3/10)
      (by norm_num) (by norm_num)
  exact ⟨res, heq, hroster, hwin, hloss⟩

/-- C4 counterexample: the value returned by a successful battle is not
the winning Meal value itself.  Two rosters whose winning meals differ
(ids 1 and 7) but share the name "Meal 1" produce the same returned
value; the return carries only the winner's `meal` field, as pinned by
test_battle line 43. -/
theorem battle_return_not_full_meal :
    ∃ res1 res2,
      battle [sampleMeal1, sampleMeal2] (3/10) = Except.ok res1 ∧
      battle [sampleMealDup, sampleMeal2] (3/10) = Except.ok res2 ∧
      res1.winner ≠ res2.winner ∧
      res1.returnValue = res2.returnValue ∧
      res1.returnValue = res1.winner.meal := by
  refine ⟨{ returnValue := sampleMeal1.meal, winner := sampleMeal1,
            statCalls := [(sampleMeal1.id, "win"), (sampleMeal2.id, "loss")],
            combatants := [sampleMeal1] },
          { returnValue := sampleMealDup.meal, winner := sampleMealDup,
            statCalls := [(sampleMealDup.id, "win"), (sampleMeal2.id, "loss")],
            combatants := [sampleMealDup] },
          ?_, ?_, ?_, rfl, rfl⟩
  · rw [battle_pair_eq, if_pos draw_lt_delta_12]
  · rw [battle_pair_eq, if_pos draw_lt_delta_dup2]
  · simp [sampleMeal1, sampleMealDup]

/-- C4 amended: a successful battle resolution returns the winning
meal's name (its `meal` field), not the full Meal value. -/
theorem battle_returns_winner_name (c1 c2 : Meal) (r : ℚ)
    (hr0 : 0 ≤ r) (hr1 : r < 1) :
    ∃ res, battle [c1, c2] r = Except.ok res ∧
      res.returnValue = res.winner.meal := by
  rw [battle_pair_eq]
  by_cases hlt : r < |get_battle_score c1 - get_battle_score c2| / 100
  · rw [if_pos hlt]; exact ⟨_, rfl, rfl⟩
  · rw [if_neg hlt]; exact ⟨_, rfl, rfl⟩

/-- Witness for the amended C4: at the test fixtures the returned value
is the winner's name. -/
theorem battle_returns_winner_name_witness :
    ∃ res, battle [sampleMeal1, sampleMeal2] (3/10) = Except.ok res ∧
      res.returnValue = res.winner.meal :=
  battle_returns_winner_name sampleMeal1 sampleMeal2 (3/10)
    (by norm_num) (by norm_num)

/-- C5: on a roster of 0 or 1 combatants the battle fails with the
InvalidState message "Two combatants must be prepped for a battle.",
leaves the roster unchanged and issues no stat-sink call. -/
theorem battle_requires_two_combatants (st : List Meal) (r : ℚ)
    (h : st.length = 0 ∨ st.length = 1) :
    battleRun st r =
      (st, [], Except.error "Two combatants must be prepped for a battle.") := by
  rcases st with _ | ⟨a, _ | ⟨b, t⟩⟩
  · rfl
  · rfl
  · rcases h with h | h <;> simp at h

/-- Witness for C5: a single-combatant roster fails with the exact
message and keeps its entry. -/
theorem battle_requires_two_combatants_witness :
    battleRun [sampleMeal1] (1/2) =
      ([sampleMeal1], [],
        Except.error "Two combatants must be prepped for a battle.") :=
  battle_requires_two_combatants [sampleMeal1] (1/2) (Or.inr rfl)

/-- C6: preparing a meal on a roster that already holds 2 entries fails
with the capacity message and leaves the roster's 2 entries in place;
on a roster with fewer than 2 entries the meal is appended at the end. -/
theorem prep_combatant_capacity (st : List Meal) (m : Meal) :
    (st.length = 2 →
      prepRun st m =
        (st, Except.error "Combatant list is full, cannot add more combatants.")) ∧
    (st.length < 2 → prepRun st m = (st ++ [m], Except.ok ())) := by
  constructor
  · intro h
    rw [prepRun, prep_combatant, if_pos (by omega)]
  · intro h
    rw [prepRun, prep_combatant, if_neg (by omega)]

/-- Witness for C6: a third meal on the full two-meal roster is rejected
with the exact message, and preparing on the empty roster appends. -/
theorem prep_combatant_capacity_witness :
    prepRun [sampleMeal1, sampleMeal2] sampleMeal3 =
      ([sampleMeal1, sampleMeal2],
        Except.error "Combatant list is full, cannot add more combatants.") ∧
    prepRun [] sampleMeal1 = ([sampleMeal1], Except.ok ()) :=
  ⟨(prep_combatant_capacity [sampleMeal1, sampleMeal2] sampleMeal3).1 rfl,
   (prep_combatant_capacity [] sampleMeal1).2 (by norm_num)⟩

/-- Every entry of the filtered-and-mapped leaderboard body comes from a
non-deleted row with at least one battle and carries the rounded win
percentage of that row. -/
theorem leaderboard_body_mem (db : List MealRow) (e : LeaderboardEntry)
    (he : e ∈ (db.filter fun row =>
        !row.deleted && decide (0 < row.battles)).map leaderboardEntryOfRow) :
    ∃ row ∈ db, row.deleted = false ∧ 0 < row.battles ∧
      e = leaderboardEntryOfRow row ∧
      e.win_pct = round1 ((row.wins : ℚ) / (row.battles : ℚ) * 100) := by
  obtain ⟨row, hrow, hmap⟩ := List.mem_map.mp he
  obtain ⟨hdb, hp⟩ := List.mem_filter.mp hrow
  simp only [Bool.and_eq_true, Bool.not_eq_true', decide_eq_true_eq] at hp
  exact ⟨row, hdb, hp.1, hp.2, hmap.symm, by rw [← hmap]; rfl⟩

/-- C7: the leaderboard rejects every sort key other than "wins" and
"win_pct" with an InvalidArgument error; every reported entry stems from
a non-deleted row with battles > 0 and its win_pct is
round(wins / battles * 100, 1); the rounding yields 33.3 for 1 win in 3
battles, 0.0 for 0 wins in 1 battle and 100.0 for 2 wins in 2 battles. -/
theorem get_leaderboard_spec :
    (∀ (db : List MealRow) (sort_by : String),
        sort_by ≠ "wins" → sort_by ≠ "win_pct" →
        get_leaderboard db sort_by =
          Except.error ("Invalid sort_by parameter: " ++ sort_by)) ∧
    (∀ (db : List MealRow) (sort_by : String) (out : List LeaderboardEntry),
        get_leaderboard db sort_by = Except.ok out →
        ∀ e ∈ out, ∃ row ∈ db, row.deleted = false ∧ 0 < row.battles ∧
          e = leaderboardEntryOfRow row ∧
          e.win_pct = round1 ((row.wins : ℚ) / (row.battles : ℚ) * 100)) ∧
    round1 ((1 : ℚ) / 3 * 100) = 333/10 ∧
    round1 ((0 : ℚ) / 1 * 100) = 0 ∧
    round1 ((2 : ℚ) / 2 * 100) = 100 := by
  refine ⟨?_, ?_, ?_, ?_, ?_⟩
  · intro db sort_by h1 h2
    rw [get_leaderboard, if_neg h2, if_neg h1]
  · intro db sort_by out hout e he
    rw [get_leaderboard] at hout
    by_cases hwp : sort_by = "win_pct"
    · rw [if_pos hwp] at hout
      obtain rfl : _ = out := (Except.ok.injEq _ _).mp hout
      exact leaderboard_body_mem db e (List.mem_mergeSort.mp he)
    · rw [if_neg hwp] at hout
      by_cases hw : sort_by = "wins"
      · rw [if_pos hw] at hout
        obtain rfl : _ = out := (Except.ok.injEq _ _).mp hout
        exact leaderboard_body_mem db e (List.mem_mergeSort.mp he)
      · rw [if_neg hw] at hout
        cases hout
  · norm_num [round1, round_eq]
  · norm_num [round1, round_eq]
  · norm_num [round1, round_eq]

/-- Witness for C7: the sort key "battles" is rejected with the exact
error message, and a concrete one-row table yields an entry whose
win_pct is the rounded percentage of its row. -/
theorem get_leaderboard_spec_witness :
    get_leaderboard [] "battles" =
      Except.error "Invalid sort_by parameter: battles" ∧
    (∃ row ∈ [sampleRow1], row.deleted = false ∧ 0 < row.battles ∧
      leaderboardEntryOfRow sampleRow1 = leaderboardEntryOfRow row ∧
      (leaderboardEntryOfRow sampleRow1).win_pct =
        round1 ((row.wins : ℚ) / (row.battles : ℚ) * 100)) := by
  constructor
  · exact get_leaderboard_spec.1 [] "battles" (by decide) (by decide)
  · have hout : get_leaderboard [sampleRow1] "wins" =
        Except.ok [leaderboardEntryOfRow sampleRow1] := by
      rw [get_leaderboard, if_neg (by decide), if_pos rfl]
      norm_num [sampleRow1, List.filter]
    exact get_leaderboard_spec.2.1 [sampleRow1] "wins"
      [leaderboardEntryOfRow sampleRow1] hout
      (leaderboardEntryOfRow sampleRow1) (by simp)

/-- C8: meal construction succeeds exactly when the price is
non-negative and the difficulty is LOW, MED or HIGH, and every meal the
constructor yields has exactly the given fields, hence satisfies both
invariants. -/
theorem mkMeal_spec (id : Int) (meal cuisine : String) (price : ℚ)
    (difficulty : String) :
    ((∃ m, mkMeal id meal cuisine price difficulty = Except.ok m) ↔
      (0 ≤ price ∧ difficulty ∈ (["LOW", "MED", "HIGH"] : List String))) ∧
    (∀ m, mkMeal id meal cuisine price difficulty = Except.ok m →
      0 ≤ m.price ∧ m.difficulty ∈ (["LOW", "MED", "HIGH"] : List String) ∧
      m = { id := id, meal := meal, cuisine := cuisine, price := price,
            difficulty := difficulty }) := by
  rw [mkMeal]
  by_cases hp : price < 0
  · rw [if_pos hp]
    refine ⟨⟨fun h => ?_, fun h => ?_⟩, fun m hm => by cases hm⟩
    · obtain ⟨m, hm⟩ := h; cases hm
    · exact absurd h.1 (not_le.mpr hp)
  · rw [if_neg hp]
    by_cases hd : difficulty ∈ (["LOW", "MED", "HIGH"] : List String)
    · rw [if_pos hd]
      refine ⟨⟨fun _ => ⟨not_lt.mp hp, hd⟩, fun _ => ⟨_, rfl⟩⟩, ?_⟩
      intro m hm
      obtain rfl : _ = m := (Except.ok.injEq _ _).mp hm
      exact ⟨not_lt.mp hp, hd, rfl⟩
    · rw [if_neg hd]
      refine ⟨⟨fun h => ?_, fun h => absurd h.2 hd⟩, fun m hm => by cases hm⟩
      obtain ⟨m, hm⟩ := h; cases hm

/-- Witness for C8: the fixture (price 9.99, difficulty HIGH) constructs
successfully, and the constructed meal satisfies both invariants. -/
theorem mkMeal_spec_witness :
    mkMeal 1 "Meal 1" "Chinese" (999/100) "HIGH" = Except.ok sampleMeal1 ∧
    0 ≤ sampleMeal1.price ∧
    sampleMeal1.difficulty ∈ (["LOW", "MED", "HIGH"] : List String) := by
  have heq : mkMeal 1 "Meal 1" "Chinese" (999/100) "HIGH" =
      Except.ok sampleMeal1 := by
    rw [mkMeal, if_neg (by norm_num), if_pos (by decide)]
    rfl
  have h := (mkMeal_spec 1 "Meal 1" "Chinese" (999/100) "HIGH").2
    sampleMeal1 heq
  exact ⟨heq, h.1, h.2.1⟩

/-- C9: clearing a roster of 0, 1 or 2 combatants yields the empty
roster, and clearing twice gives the same roster as clearing once. -/
theorem clear_combatants_spec (st : List Meal) (h : st.length ≤ 2) :
    clear_combatants st = [] ∧
    clear_combatants (clear_combatants st) = clear_combatants st :=
  ⟨rfl, rfl⟩

/-- Witness for C9: clearing the one-meal roster empties it and is
idempotent. -/
theorem clear_combatants_spec_witness :
    clear_combatants [sampleMeal1] = [] ∧
    clear_combatants (clear_combatants [sampleMeal1]) =
      clear_combatants [sampleMeal1] :=
  clear_combatants_spec [sampleMeal1] (by norm_num)

/-- C10: for an existing non-deleted meal, recording a win increments
that meal's battles and wins by one, recording a loss increments only
its battles, and every row with a different id is left untouched. -/
theorem update_meal_stats_spec (db : List MealRow) (meal_id : Int)
    (row : MealRow)
    (hfind : db.find? (fun r => r.id == meal_id) = some row)
    (hdel : row.deleted = false) :
    update_meal_stats db meal_id "win" =
      Except.ok (db.map fun r =>
        if r.id = meal_id then
          { r with battles := r.battles + 1, wins := r.wins + 1 }
        else r) ∧
    update_meal_stats db meal_id "loss" =
      Except.ok (db.map fun r =>
        if r.id = meal_id then { r with battles := r.battles + 1 } else r) ∧
    (∀ r ∈ db, r.id ≠ meal_id →
      ∀ out, (update_meal_stats db meal_id "win" = Except.ok out ∨
              update_meal_stats db meal_id "loss" = Except.ok out) →
        r ∈ out) := by
  have hwin : update_meal_stats db meal_id "win" =
      Except.ok (db.map fun r =>
        if r.id = meal_id then
          { r with battles := r.battles + 1, wins := r.wins + 1 }
        else r) := by
    simp [update_meal_stats, hfind, hdel, beq_iff_eq]
  have hloss : update_meal_stats db meal_id "loss" =
      Except.ok (db.map fun r =>
        if r.id = meal_id then { r with battles := r.battles + 1 } else r) := by
    simp [update_meal_stats, hfind, hdel, beq_iff_eq]
  refine ⟨hwin, hloss, ?_⟩
  intro r hr hne out hout
  rcases hout with hout | hout
  · rw [hwin] at hout
    obtain rfl : _ = out := (Except.ok.injEq _ _).mp hout
    have hfr : (fun s : MealRow =>
        if s.id = meal_id then
          { s with battles := s.battles + 1, wins := s.wins + 1 }
        else s) r = r := by
      simp [hne]
    have hmem := List.mem_map_of_mem
      (f := fun s : MealRow =>
        if s.id = meal_id then
          { s with battles := s.battles + 1, wins := s.wins + 1 }
        else s) hr
    rwa [hfr] at hmem
  · rw [hloss] at hout
    obtain rfl : _ = out := (Except.ok.injEq _ _).mp hout
    have hfr : (fun s : MealRow =>
        if s.id = meal_id then { s with battles := s.battles + 1 } else s) r
          = r := by
      simp [hne]
    have hmem := List.mem_map_of_mem
      (f := fun s : MealRow =>
        if s.id = meal_id then { s with battles := s.battles + 1 } else s) hr
    rwa [hfr] at hmem

/-- Witness for C10: on a two-row table, a win for meal 1 takes its
battles from 3 to 4 and wins from 1 to 2 while row 2 is untouched, and
a loss takes only its battles to 4. -/
theorem update_meal_stats_spec_witness :
    update_meal_stats [sampleRow1, sampleRow2] 1 "win" =
      Except.ok [{ sampleRow1 with battles := 4, wins := 2 }, sampleRow2] ∧
    update_meal_stats [sampleRow1, sampleRow2] 1 "loss" =
      Except.ok [{ sampleRow1 with battles := 4 }, sampleRow2] := by
  have h := update_meal_stats_spec [sampleRow1, sampleRow2] 1 sampleRow1
    (by rw [List.find?]; simp [sampleRow1]) rfl
  constructor
  · rw [h.1]
    simp [sampleRow1, sampleRow2]
  · rw [h.2.1]
    simp [sampleRow1, sampleRow2]

end MealMax
